import Mathlib

/-
A verification development for the libbpf-rs runtime library and the
libbpf-cargo skeleton generator. Rust functions from the repository are
embedded as executable Lean definitions; external platform calls
(libbpf-sys) are passed in as explicit outcome parameters, and machine
integers are natural numbers with explicit two-complement arithmetic
where overflow matters.
-/

deriving instance DecidableEq for Except

/-- Modelled from the spec: the `Error` enum lives in the crate root
(lib.rs), which is not among the sources. Constructors follow the error
taxonomy of spec section 7 (`InvalidInput`, `NotFound`, `System(code)`,
`Internal`); the source files under src construct only `invalidInput`,
`system` and `internal`. -/
inductive BpfError
  | invalidInput (msg : String)
  | notFound (msg : String)
  | system (errno : Int)
  | internal (msg : String)
deriving Repr, DecidableEq

/-- Modelled from the spec: `MapType` lives in the crate root (lib.rs),
not among the sources. Only the ring-buffer table type
(`PerfEventArray`) is distinguished by the embedded code; the remaining
kernel map types are collapsed into representative constructors. -/
inductive MapType
  | perfEventArray
  | hash
  | array
  | unknown
deriving Repr, DecidableEq

/-- Modelled from the spec: the created-map handle. In
src/libbpf-rs/src/object.rs the struct `Map` stores only the kernel file
descriptor and the accessors `key_size`, `value_size` and `map_type` are
unimplemented stubs; per the spec, a `Map` carries its configured key
size, value size and table type, fixed at creation time. -/
structure Map where
  fd : Nat
  key_size : Nat
  value_size : Nat
  map_type : MapType
deriving Repr, DecidableEq

/- ### Perf buffer (src/libbpf-rs/src/perf_buffer.rs) -/

/-- Number of bits of the Rust `usize` type on the supported platforms. -/
def USIZE_BITS : Nat := 64

/-- Bitwise complement of a `usize` value (the Rust unary `!` on an
unsigned integer), valid for `x < 2 ^ USIZE_BITS`. -/
def usize_not (x : Nat) : Nat := 2 ^ USIZE_BITS - 1 - x

/-- Embeds `fn is_power_two(i: usize) -> bool { i > 0 && (!(i & (i - 1))) > 0 }`
from src/libbpf-rs/src/perf_buffer.rs. Note that the Rust `!` here is
the bitwise complement, embedded as `usize_not`. -/
def is_power_two (i : Nat) : Bool := decide (0 < i) && decide (0 < usize_not (i &&& (i - 1)))

/-- The perf-buffer handle produced by a successful build; its only
runtime content is a foreign pointer, irrelevant to the embedded logic. -/
inductive PerfBuffer
  | mk
deriving Repr, DecidableEq

/-- Embeds the fields of `PerfBufferBuilder` that the embedded logic
reads: the target map, the page count, and whether each optional
callback has been registered. -/
structure PerfBufferBuilder where
  map : Map
  pages : Nat
  has_sample_cb : Bool
  has_lost_cb : Bool
deriving Repr, DecidableEq

/-- Embeds `PerfBufferBuilder::new`: page count starts at 64, no
callbacks registered. -/
def PerfBufferBuilder.new (m : Map) : PerfBufferBuilder :=
  { map := m, pages := 64, has_sample_cb := false, has_lost_cb := false }

/-- Embeds `PerfBufferBuilder::sample_cb`: registers the sample
callback, preserving the map and page count. -/
def PerfBufferBuilder.sample_cb (b : PerfBufferBuilder) : PerfBufferBuilder :=
  { b with has_sample_cb := true }

/-- Embeds `PerfBufferBuilder::lost_cb`: registers the loss callback,
preserving the map and page count. -/
def PerfBufferBuilder.lost_cb (b : PerfBufferBuilder) : PerfBufferBuilder :=
  { b with has_lost_cb := true }

/-- Embeds `PerfBufferBuilder::pages`: overwrites the page count. -/
def PerfBufferBuilder.set_pages (b : PerfBufferBuilder) (n : Nat) : PerfBufferBuilder :=
  { b with pages := n }

/-- Embeds `PerfBufferBuilder::build`. The kernel outcome of
`perf_buffer__new` is the parameter `kres` (the value read back by
`libbpf_get_error`: 0 on success, an error code otherwise). Returns the
build result paired with a flag recording whether the kernel call was
issued. -/
def PerfBufferBuilder.build (b : PerfBufferBuilder) (kres : Int) :
    Except BpfError PerfBuffer × Bool :=
  if b.map.map_type ≠ MapType.perfEventArray then
    (.error (.invalidInput "Must use a PerfEventArray map"), false)
  else if !is_power_two b.pages then
    (.error (.invalidInput "Page count must be power of two"), false)
  else if kres ≠ 0 then
    (.error (.system kres), true)
  else
    (.ok PerfBuffer.mk, true)

/-- The perf-buffer builders reachable from `PerfBufferBuilder.new`
without any call to `pages`: only callback registration is applied. -/
inductive NoPagesCall : PerfBufferBuilder → Prop
  | new (m : Map) : NoPagesCall (PerfBufferBuilder.new m)
  | sample_cb (b : PerfBufferBuilder) : NoPagesCall b → NoPagesCall b.sample_cb
  | lost_cb (b : PerfBufferBuilder) : NoPagesCall b → NoPagesCall b.lost_cb

/-- A concrete map of the ring-buffer table type, used to evaluate the
perf-buffer builder. -/
def perfMap : Map :=
  { fd := 4, key_size := 4, value_size := 4, map_type := MapType.perfEventArray }

/- ### Map operations (src/libbpf-rs/src/object.rs, Map impl) -/

/-- One kernel call issued by a map operation; operations return the
list of calls they issued so that the absence of kernel traffic on an
error path is observable. -/
inductive KernelCall
  | lookup_elem (fd : Nat) (key : List Nat)
  | delete_elem (fd : Nat) (key : List Nat)
  | lookup_and_delete_elem (fd : Nat) (key : List Nat)
  | update_elem (fd : Nat) (key value : List Nat) (flags : Nat)
deriving Repr, DecidableEq

/-- Modelled from the spec: the body of `Map::lookup` is an
unimplemented stub in src/libbpf-rs/src/object.rs. Per spec sections 4.2
and 8: the key buffer length is validated against the configured
key size before any kernel call, a mismatch failing with `InvalidInput`;
otherwise the kernel lookup is issued (its reply is the parameter `k`),
a missing key (errno ENOENT = 2) is returned as `Ok(none)`, any other
errno as `System(errno)`. -/
def Map.lookup (m : Map) (key : List Nat) (_flags : Nat) (k : Except Int (List Nat)) :
    Except BpfError (Option (List Nat)) × List KernelCall :=
  if key.length ≠ m.key_size then
    (.error (.invalidInput "key buffer length does not match key_size"), [])
  else
    match k with
    | .ok v => (.ok (some v), [.lookup_elem m.fd key])
    | .error e =>
      if e = 2 then (.ok none, [.lookup_elem m.fd key])
      else (.error (.system e), [.lookup_elem m.fd key])

/-- Modelled from the spec: the body of `Map::delete` is an
unimplemented stub in src/libbpf-rs/src/object.rs. Per spec section 4.2:
key length validated first with `InvalidInput` on mismatch, then the
kernel delete is issued, an errno reply surfacing as `System(errno)`. -/
def Map.delete (m : Map) (key : List Nat) (k : Except Int Unit) :
    Except BpfError Unit × List KernelCall :=
  if key.length ≠ m.key_size then
    (.error (.invalidInput "key buffer length does not match key_size"), [])
  else
    match k with
    | .ok _ => (.ok (), [.delete_elem m.fd key])
    | .error e => (.error (.system e), [.delete_elem m.fd key])

/-- Modelled from the spec: the body of `Map::lookup_and_delete` is an
unimplemented stub in src/libbpf-rs/src/object.rs. Same contract as
`Map.lookup`, issuing the combined lookup-and-delete kernel call. -/
def Map.lookup_and_delete (m : Map) (key : List Nat) (_flags : Nat)
    (k : Except Int (List Nat)) :
    Except BpfError (Option (List Nat)) × List KernelCall :=
  if key.length ≠ m.key_size then
    (.error (.invalidInput "key buffer length does not match key_size"), [])
  else
    match k with
    | .ok v => (.ok (some v), [.lookup_and_delete_elem m.fd key])
    | .error e =>
      if e = 2 then (.ok none, [.lookup_and_delete_elem m.fd key])
      else (.error (.system e), [.lookup_and_delete_elem m.fd key])

/-- Modelled from the spec: the body of `Map::update` is an
unimplemented stub in src/libbpf-rs/src/object.rs. Per spec section 4.2:
key and value buffer lengths are validated against the configured sizes
before any kernel call, a mismatch failing with `InvalidInput`; the
flags are passed through unmodified to the kernel update call. -/
def Map.update (m : Map) (key value : List Nat) (flags : Nat) (k : Except Int Unit) :
    Except BpfError Unit × List KernelCall :=
  if key.length ≠ m.key_size then
    (.error (.invalidInput "key buffer length does not match key_size"), [])
  else if value.length ≠ m.value_size then
    (.error (.invalidInput "value buffer length does not match value_size"), [])
  else
    match k with
    | .ok _ => (.ok (), [.update_elem m.fd key value flags])
    | .error e => (.error (.system e), [.update_elem m.fd key value flags])

/- ### Object lifecycle (src/libbpf-rs/src/object.rs) -/

/-- Result of a `bpf_object__open_file` / `bpf_object__open_mem` call,
passed to the embedded open functions as an explicit parameter: the
pointer is null in every case but `success`. -/
inductive OpenOutcome
  | success
  | pathMissing
  | invalidObject
  | allocFailure
deriving Repr, DecidableEq

/-- Whether the platform open returned a null pointer. -/
def OpenOutcome.isNull : OpenOutcome → Bool
  | .success => false
  | _ => true

/-- A filesystem path as handed to `from_path`: `Path::to_str` yields a
string only when the path is valid unicode. -/
structure RustPath where
  valid_unicode : Bool
  s : String
deriving Repr, DecidableEq

/-- Whether a Rust string contains an interior NUL byte, the condition
under which `CString::new` (and hence `util::str_to_cstring`) fails. -/
def has_nul (s : String) : Bool := s.data.contains (Char.ofNat 0)

/-- The message of the `InvalidInput` error produced by
`util::str_to_cstring` on an interior NUL (display of `NulError`). -/
def nul_error_msg : String := "nul byte found in provided data"

/-- Embeds the parsed-map builder created by `Object::map`: the raw
`bpf_map` pointer, the owned name and the BTF fd recorded in the
creation attributes. -/
structure MapBuilder where
  ptr : Nat
  name : String
  btf_fd : Int
deriving Repr, DecidableEq

/-- Embeds the parsed-program builder created by `Object::prog`: the raw
`bpf_program` pointer. -/
structure ProgramBuilder where
  ptr : Nat
deriving Repr, DecidableEq

/-- Embeds `Object`: the libbpf name-lookup tables of the opened binary
object are the fixed oracle functions `find_map` / `find_prog`
(`bpf_object__find_map_by_name` / `bpf_object__find_program_by_name`,
returning null = `none` when absent), `btf_fd` is
`bpf_object__btf_fd`, and `maps` / `progs` are the memoization tables
(`HashMap` in the source, embedded as association lists where a key is
inserted at most once). -/
structure Object where
  find_map : String → Option Nat
  find_prog : String → Option Nat
  btf_fd : Int
  maps : List (String × MapBuilder)
  progs : List (String × ProgramBuilder)

/-- Embeds `Object::new`: empty memoization tables. -/
def Object.new (fm fp : String → Option Nat) (btf : Int) : Object :=
  { find_map := fm, find_prog := fp, btf_fd := btf, maps := [], progs := [] }

/-- Embeds `Object::map`. Returns the result, the updated object and the
number of underlying `bpf_object__find_map_by_name` lookups issued by
this call (0 or 1). A cached name is served from the table; a fresh name
is looked up, a hit being inserted into the table and a miss returned as
`Ok(none)` without caching. -/
def Object.map (o : Object) (name : String) :
    Except BpfError (Option MapBuilder) × Object × Nat :=
  match o.maps.lookup name with
  | some mb => (.ok (some mb), o, 0)
  | none =>
    if has_nul name then (.error (.invalidInput nul_error_msg), o, 0)
    else
      match o.find_map name with
      | none => (.ok none, o, 1)
      | some ptr =>
        let mb : MapBuilder := { ptr := ptr, name := name, btf_fd := o.btf_fd }
        (.ok (some mb), { o with maps := (name, mb) :: o.maps }, 1)

/-- Embeds `Object::prog`; same shape as `Object.map` over the program
table. -/
def Object.prog (o : Object) (name : String) :
    Except BpfError (Option ProgramBuilder) × Object × Nat :=
  match o.progs.lookup name with
  | some pb => (.ok (some pb), o, 0)
  | none =>
    if has_nul name then (.error (.invalidInput nul_error_msg), o, 0)
    else
      match o.find_prog name with
      | none => (.ok none, o, 1)
      | some ptr =>
        let pb : ProgramBuilder := { ptr := ptr }
        (.ok (some pb), { o with progs := (name, pb) :: o.progs }, 1)

/-- Embeds the fields of `ObjectBuilder` read by the open functions. -/
structure ObjectBuilder where
  name : String
  relaxed_maps : Bool
deriving Repr, DecidableEq

/-- Embeds `ObjectBuilder::default`. -/
def ObjectBuilder.default : ObjectBuilder := { name := "", relaxed_maps := false }

/-- Embeds `ObjectBuilder::from_path`: the path must be valid unicode
(`InvalidInput` otherwise) and NUL-free (as must the configured name);
then `bpf_object__open_file` is called, whose outcome is the parameter
`res` (`obj` being the object it yields on success). A null pointer from
the platform open is reported as
`Internal("Could not create bpf_object")`, with no inspection of the
cause. -/
def ObjectBuilder.from_path (b : ObjectBuilder) (path : RustPath) (res : OpenOutcome)
    (obj : Object) : Except BpfError Object :=
  if !path.valid_unicode then
    .error (.invalidInput (path.s ++ " is not valid unicode"))
  else if has_nul path.s then
    .error (.invalidInput nul_error_msg)
  else if has_nul b.name then
    .error (.invalidInput nul_error_msg)
  else if res.isNull then
    .error (.internal "Could not create bpf_object")
  else
    .ok obj

/-- Embeds `ObjectBuilder::from_memory`: the supplied name must be
NUL-free, then `bpf_object__open_mem` is called; a null pointer is
reported as `Internal("Could not create bpf_object")`, with no
inspection of the cause. -/
def ObjectBuilder.from_memory (_b : ObjectBuilder) (name : String) (_mem : List Nat)
    (res : OpenOutcome) (obj : Object) : Except BpfError Object :=
  if has_nul name then
    .error (.invalidInput nul_error_msg)
  else if res.isNull then
    .error (.internal "Could not create bpf_object")
  else
    .ok obj

/-- Whether an open result is the `NotFound` error variant. -/
def BpfError.is_not_found : BpfError → Bool
  | .notFound _ => true
  | _ => false

/-- Whether an `Except` result carries the `NotFound` error variant. -/
def errIsNotFound (r : Except BpfError Object) : Bool :=
  match r with
  | .error e => e.is_not_found
  | .ok _ => false

/- ### Skeleton generator (src/libbpf-cargo/src/gen.rs) -/

/-- Embeds `open_object_file` from src/libbpf-cargo/src/gen.rs: a
missing path fails with the not-found message before the platform open
is attempted; a null pointer from the platform open fails with the
could-not-open message. The boolean records whether the platform open
was called. -/
def open_object_file (path_exists : Bool) (pathStr : String) (res : OpenOutcome) :
    Except String Unit × Bool :=
  if !path_exists then
    (.error ("Object file not found: " ++ pathStr), false)
  else if has_nul pathStr then
    (.error nul_error_msg, false)
  else if res.isNull then
    (.error ("Could not open object file=" ++ pathStr), true)
  else
    (.ok (), true)

/-- Embeds Rust `str::ends_with` as a suffix test on the character
list. -/
def ends_with (s suffix : String) : Bool := suffix.data.isSuffixOf s.data

/-- A `bpf_map` as seen by the generator through the platform accessors:
`bpf_map__name` (null = `none`) and `bpf_map__is_internal`. -/
structure MapObj where
  raw_name : Option String
  is_internal : Bool
deriving Repr, DecidableEq

/-- A `bpf_program` as seen by the generator through `bpf_program__name`
(null = `none`). -/
structure ProgObj where
  raw_name : Option String
deriving Repr, DecidableEq

/-- Embeds `get_raw_map_name` from src/libbpf-cargo/src/gen.rs: fails
when the platform reports no name. -/
def get_raw_map_name (m : MapObj) : Except String String :=
  match m.raw_name with
  | none => .error "Map name unknown"
  | some n => .ok n

/-- Embeds `get_map_name` from src/libbpf-cargo/src/gen.rs: a
non-internal map keeps its raw name; an internal map section is renamed
by suffix (".data" to "data", ".rodata" to "rodata", ".bss" to "bss",
".kconfig" to "kconfig"), any other internal name failing with
"Unknown map type". -/
def get_map_name (m : MapObj) : Except String String :=
  match get_raw_map_name m with
  | .error e => .error e
  | .ok name =>
    if !m.is_internal then
      .ok name
    else if ends_with name ".data" then
      .ok "data"
    else if ends_with name ".rodata" then
      .ok "rodata"
    else if ends_with name ".bss" then
      .ok "bss"
    else if ends_with name ".kconfig" then
      .ok "kconfig"
    else
      .error "Unknown map type"

/-- Embeds `get_prog_name` from src/libbpf-cargo/src/gen.rs. -/
def get_prog_name (p : ProgObj) : Except String String :=
  match p.raw_name with
  | none => .error "Prog name unknown"
  | some n => .ok n

/-- The canonical-name function as spec section 4.5 words it: a fixed
suffix table maps an internal section name to its short name, any other
internal name is a generation error, and a non-internal map keeps its
raw name. -/
def spec_suffix_table : List (String × String) :=
  [(".data", "data"), (".rodata", "rodata"), (".bss", "bss"), (".kconfig", "kconfig")]

/-- The spec-worded counterpart of `get_map_name`, to be compared with
the embedding of the source function. -/
def spec_canonical_map_name (internal : Bool) (name : String) : Except String String :=
  if !internal then
    .ok name
  else
    match spec_suffix_table.find? (fun p => ends_with name p.1) with
    | some p => .ok p.2
    | none => .error "Unknown map type"

/-- Embeds the Rust first-character capitalization performed on the
object name in `gen_skel_contents`. -/
def capitalize_name (s : String) : String :=
  match s.data with
  | [] => ""
  | c :: cs => String.mk (Char.toUpper c :: cs)

/-- The structure of one generated skeleton, one field per section that
`gen_skel_contents` may emit. An `Option` field is `none` exactly when
the corresponding emission function returned without writing anything;
a `Bool` field records whether its fragment was written. -/
structure SkelParts where
  builder_name : String
  open_maps_ns : Option (List (String × String))
  open_progs_ns : Option (List String)
  open_skel_name : String
  load_inits_links : Bool
  open_progs_getter : Bool
  open_maps_getter : Bool
  loaded_maps_ns : Option (List (String × String))
  loaded_progs_ns : Option (List String)
  links_def : Option (List String)
  loaded_skel_name : String
  links_field : Bool
  loaded_progs_getter : Bool
  loaded_maps_getter : Bool
  attach_def : Option (List String)
deriving Repr, DecidableEq

/-- The accessor list of a maps namespace: for each map, the
canonicalized accessor name paired with the raw name used for the
runtime lookup, as emitted by `gen_skel_map_defs`. The first failing
name aborts generation. -/
def map_accessors (maps : List MapObj) : Except String (List (String × String)) :=
  maps.mapM (fun m => do
    let acc ← get_map_name m
    let raw ← get_raw_map_name m
    pure (acc, raw))

/-- The accessor list of a progs namespace, as emitted by
`gen_skel_prog_defs`. -/
def prog_accessors (progs : List ProgObj) : Except String (List String) :=
  progs.mapM get_prog_name

/-- Embeds `gen_skel_contents` from src/libbpf-cargo/src/gen.rs at the
level of emitted sections. Every emission helper
(`gen_skel_map_defs`, `gen_skel_prog_defs`, `gen_skel_link_defs`,
`gen_skel_link_getter`, `gen_skel_attach`, the getters) returns without
writing anything when its map or program iterator is empty, so the
corresponding field is `none` or `false`; the top-level builder, open
skeleton and loaded skeleton types are written unconditionally. -/
def gen_skel_contents (objName : String) (maps : List MapObj) (progs : List ProgObj) :
    Except String SkelParts :=
  let n := capitalize_name objName
  match (if maps.isEmpty then .ok [] else map_accessors maps : Except String _) with
  | .error e => .error e
  | .ok maccs =>
  match (if progs.isEmpty then .ok [] else prog_accessors progs : Except String _) with
  | .error e => .error e
  | .ok pnames =>
  .ok {
    builder_name := n ++ "SkelBuilder"
    open_maps_ns := if maps.isEmpty then none else some maccs
    open_progs_ns := if progs.isEmpty then none else some pnames
    open_skel_name := "Open" ++ n ++ "Skel"
    load_inits_links := !progs.isEmpty
    open_progs_getter := !progs.isEmpty
    open_maps_getter := !maps.isEmpty
    loaded_maps_ns := if maps.isEmpty then none else some maccs
    loaded_progs_ns := if progs.isEmpty then none else some pnames
    links_def := if progs.isEmpty then none else some pnames
    loaded_skel_name := n ++ "Skel"
    links_field := !progs.isEmpty
    loaded_progs_getter := !progs.isEmpty
    loaded_maps_getter := !maps.isEmpty
    attach_def := if progs.isEmpty then none else some pnames }

/- ### Generated attach (gen_skel_attach output semantics) -/

/-- Outcome of one `Program::attach` call inside the generated
`attach` method: either a link (identified by a number) or an error. -/
inductive AttachOutcome
  | ok (link : Nat)
  | err (e : BpfError)
deriving Repr, DecidableEq

/-- Embeds the per-program expression emitted by `gen_skel_attach`: a
successful attach fills the slot, a failure with `System(3)` (ESRCH,
"cannot be auto-attached") yields an empty slot, and any other failure
propagates the error. -/
def attach_step : AttachOutcome → Except BpfError (Option Nat)
  | .ok l => .ok (some l)
  | .err (.system n) => if n = 3 then .ok none else .error (.system n)
  | .err e => .error e

/-- The slot an outcome produces when tolerated. -/
def slot_of : AttachOutcome → Option Nat
  | .ok l => some l
  | .err _ => none

/-- The kernel links created by a list of attach outcomes. -/
def links_of (outs : List AttachOutcome) : List Nat :=
  outs.filterMap (fun o => match o with | .ok l => some l | .err _ => none)

/-- Modelled in part from the spec: `Link` is absent from the sources
(the generated code names `libbpf_rs::Link`), and per spec section 3
destruction of a Link detaches it. Embeds the generated `attach` method
over the per-program attach outcomes, taken in discovery order. The
generated code assigns `self.links` through a single struct literal
whose field initializers each end in `?`: the initializers are
evaluated in order, and an intolerable error early-returns, dropping
the already-evaluated `Option<Link>` field temporaries — which
detaches their links — and leaving the links record unassigned.
Returns the list of kernel links created (every successful attach up
to the abort point), the list of links detached by dropped temporaries
(empty on success, where the slots are moved into the record; listed
in discovery order, only membership mattering), and the result: the
filled links record on success, or the first intolerable error. -/
def attach_all : List AttachOutcome → List Nat × List Nat × Except BpfError (List (Option Nat))
  | [] => ([], [], .ok [])
  | o :: rest =>
    let created := match o with | .ok l => [l] | .err _ => []
    match attach_step o with
    | .error e => (created, [], .error e)
    | .ok slot =>
      match attach_all rest with
      | (c, d, .error e) =>
        (created ++ c, (match slot with | some l => [l] | none => []) ++ d, .error e)
      | (c, d, .ok slots) => (created ++ c, d, .ok (slot :: slots))

/- ### System-wide info iteration (src/libbpf-rs/src/query.rs) -/

/-- Reply of a `bpf_*_get_fd_by_id` call: a temporary fd, or a negative
return with the given errno. -/
inductive FdReply
  | fd (fd : Nat)
  | errno (e : Int)
deriving Repr, DecidableEq

/-- The id enumeration as the iterator consumes it: `entries` holds one
element per successful `bpf_*_get_next_id` step (the id together with
the fd-by-id reply for it), and `end_errno` is the errno with which the
enumeration finally fails (ENOENT = 2 meaning normal exhaustion). -/
structure EnumState where
  entries : List (Nat × FdReply)
  end_errno : Int
deriving Repr, DecidableEq

/-- Embeds `get_next_valid_fd` from src/libbpf-rs/src/query.rs: loops
over the id enumeration; an exhausted enumeration ends the iteration
(`Ok(none)`) when its errno is ENOENT and fails with `System(errno)`
otherwise; an fd lookup failing with ENOENT is skipped silently; any
other fd-lookup errno fails with `System(errno)`. Returns the result
together with the remaining enumeration state. -/
def get_next_valid_fd : EnumState → Except BpfError (Option Nat) × EnumState
  | ⟨[], e⟩ =>
    (if e = 2 then .ok none else .error (.system e), ⟨[], e⟩)
  | ⟨entry :: rest, e⟩ =>
    match entry.2 with
    | .fd fd => (.ok (some fd), ⟨rest, e⟩)
    | .errno er =>
      if er = 2 then get_next_valid_fd ⟨rest, e⟩
      else (.error (.system er), ⟨rest, e⟩)

/-- Embeds `Iterator::next` of the query iterators
(src/libbpf-rs/src/query.rs): fetches the next valid fd, reads the info
through `bpf_obj_get_info_by_fd` (the reply function `getInfo`), closes
the fd, and yields the info or a `System(errno)` item. Returns the
yielded item (`none` ends the iteration), the remaining enumeration
state and the list of fds closed during the step. -/
def iter_next (st : EnumState) (getInfo : Nat → Except Int Nat) :
    Option (Except BpfError Nat) × EnumState × List Nat :=
  match get_next_valid_fd st with
  | (.ok none, st2) => (none, st2, [])
  | (.error e, st2) => (some (.error e), st2, [])
  | (.ok (some fd), st2) =>
    match getInfo fd with
    | .ok info => (some (.ok info), st2, [fd])
    | .error er => (some (.error (.system er)), st2, [fd])

/- ### Concrete instances used to evaluate the definitions -/

/-- An opened object with no maps and no programs: both name-lookup
oracles report absence and no BTF is present. -/
def emptyObject : Object := Object.new (fun _ => none) (fun _ => none) (-1)

/-- An opened object holding one resolvable map name "a" (pointer 7),
one resolvable program name "p" (pointer 9), one already-cached map
name "c" and one already-cached program name "q". -/
def sampleObject : Object :=
  { find_map := fun s => if s = "a" then some 7 else none
    find_prog := fun s => if s = "p" then some 9 else none
    btf_fd := 5
    maps := [("c", ⟨1, "c", 5⟩)]
    progs := [("q", ⟨2⟩)] }

/- ### Theorems -/

/-- Claim C1: the claim states that for every builder whose page count
is not a power of two (for example 3), build returns InvalidInput
before any kernel call, the internal check accepting a positive count
if and only if it is a power of two. The code contradicts the name and
error message of its own check: the Rust `!` in `is_power_two` is the
bitwise complement, and the complement of `i & (i - 1)` is nonzero for
every representable `i`, so the check accepts every positive count.
Evaluated at the failing input: `is_power_two 3` is `true`, and a build
with page count 3 on a ring-buffer map passes both checks and issues
the kernel call (second component `true`), succeeding when the kernel
does. -/
theorem c1_build_accepts_non_power_of_two_pages :
  is_power_two 3 = true ∧
  PerfBufferBuilder.build
      { map := perfMap, pages := 3, has_sample_cb := false, has_lost_cb := false } 0
    = (.ok .mk, true) :=
  ⟨by decide, by decide⟩

/-- Claim C2: for every map and every key or value buffer whose length
differs from the configured key_size/value_size, each of lookup,
delete, lookup_and_delete and update returns the InvalidInput error as
a result value and issues no kernel call (empty call list). The update
operation checks the key first, then the value. -/
theorem c2_bad_buffer_sizes_rejected_locally (m : Map) (key key_ok value : List Nat)
    (fl : Nat) (kl klad : Except Int (List Nat)) (kd ku ku2 : Except Int Unit)
    (hk : key.length ≠ m.key_size) (hko : key_ok.length = m.key_size)
    (hv : value.length ≠ m.value_size) :
  Map.lookup m key fl kl
    = (.error (.invalidInput "key buffer length does not match key_size"), []) ∧
  Map.delete m key kd
    = (.error (.invalidInput "key buffer length does not match key_size"), []) ∧
  Map.lookup_and_delete m key fl klad
    = (.error (.invalidInput "key buffer length does not match key_size"), []) ∧
  Map.update m key value fl ku
    = (.error (.invalidInput "key buffer length does not match key_size"), []) ∧
  Map.update m key_ok value fl ku2
    = (.error (.invalidInput "value buffer length does not match value_size"), []) := by
  refine ⟨?_, ?_, ?_, ?_, ?_⟩ <;>
    simp [Map.lookup, Map.delete, Map.lookup_and_delete, Map.update, hk, hko, hv]

/-- Witness for claim C2 at a concrete map with key size 4 and value
size 8: the empty key and the one-byte value are rejected with
InvalidInput and no kernel call, whatever the kernel would reply. -/
theorem c2_bad_buffer_sizes_rejected_locally_witness :
  Map.lookup ⟨3, 4, 8, .hash⟩ [] 0 (.ok [])
    = (.error (.invalidInput "key buffer length does not match key_size"), []) ∧
  Map.delete ⟨3, 4, 8, .hash⟩ [] (.ok ())
    = (.error (.invalidInput "key buffer length does not match key_size"), []) ∧
  Map.lookup_and_delete ⟨3, 4, 8, .hash⟩ [] 0 (.ok [])
    = (.error (.invalidInput "key buffer length does not match key_size"), []) ∧
  Map.update ⟨3, 4, 8, .hash⟩ [] [1] 0 (.ok ())
    = (.error (.invalidInput "key buffer length does not match key_size"), []) ∧
  Map.update ⟨3, 4, 8, .hash⟩ [0, 0, 0, 0] [1] 0 (.ok ())
    = (.error (.invalidInput "value buffer length does not match value_size"), []) :=
  c2_bad_buffer_sizes_rejected_locally ⟨3, 4, 8, .hash⟩ [] [0, 0, 0, 0] [1] 0
    (.ok []) (.ok []) (.ok ()) (.ok ()) (.ok ()) (by decide) (by decide) (by decide)

/-- Counterexample to claim C3: opening a nonexistent path does not
fail with NotFound. At the concrete input of a valid-unicode missing
path, `from_path` returns `Internal("Could not create bpf_object")`,
and the result is not the NotFound variant. -/
theorem c3_open_missing_path_not_notfound :
  ObjectBuilder.from_path ObjectBuilder.default ⟨true, "/does/not/exist.o"⟩
      .pathMissing emptyObject
    = .error (.internal "Could not create bpf_object") ∧
  errIsNotFound (ObjectBuilder.from_path ObjectBuilder.default ⟨true, "/does/not/exist.o"⟩
      .pathMissing emptyObject)
    = false :=
  ⟨rfl, rfl⟩

/-- Claim C3 as amended: `from_path` and `from_memory` report every
failure of the underlying platform open with the single error
`Internal("Could not create bpf_object")`, regardless of whether the
path is missing, the object invalid, or allocation failed; no
NotFound/Invalid distinction is made at the runtime layer. The
build-time `open_object_file` of the generator is the function that
distinguishes a missing path, failing with its not-found message before
the platform open, and reports any null from the platform open with its
could-not-open message. -/
theorem c3_open_failures_uniformly_internal (b : ObjectBuilder) (p : RustPath)
    (name : String) (mem : List Nat) (res : OpenOutcome) (obj : Object) (pathStr : String)
    (hu : p.valid_unicode = true) (hp : has_nul p.s = false) (hb : has_nul b.name = false)
    (hn : has_nul name = false) (hes : has_nul pathStr = false) (hres : res ≠ .success) :
  b.from_path p res obj = .error (.internal "Could not create bpf_object") ∧
  b.from_memory name mem res obj = .error (.internal "Could not create bpf_object") ∧
  open_object_file false pathStr res = (.error ("Object file not found: " ++ pathStr), false) ∧
  open_object_file true pathStr res
    = (if res = .success then (.ok (), true)
       else (.error ("Could not open object file=" ++ pathStr), true)) := by
  have hnull : res.isNull = true := by
    cases res <;> simp_all [OpenOutcome.isNull]
  refine ⟨?_, ?_, ?_, ?_⟩
  · simp [ObjectBuilder.from_path, hu, hp, hb, hnull]
  · simp [ObjectBuilder.from_memory, hn, hnull]
  · simp [open_object_file]
  · cases res <;> simp_all [open_object_file, OpenOutcome.isNull, hes]

/-- Witness for claim C3 as amended, at the invalid-object outcome: the
runtime opens fail with the uniform Internal error, and the build-time
open distinguishes the missing path. -/
theorem c3_open_failures_uniformly_internal_witness :
  ObjectBuilder.default.from_path ⟨true, "/x.o"⟩ .invalidObject emptyObject
    = .error (.internal "Could not create bpf_object") ∧
  ObjectBuilder.default.from_memory "obj" [0, 1] .invalidObject emptyObject
    = .error (.internal "Could not create bpf_object") ∧
  open_object_file false "/x.o" .invalidObject
    = (.error ("Object file not found: " ++ "/x.o"), false) ∧
  open_object_file true "/x.o" .invalidObject
    = (if OpenOutcome.invalidObject = .success then (.ok (), true)
       else (.error ("Could not open object file=" ++ "/x.o"), true)) :=
  c3_open_failures_uniformly_internal ObjectBuilder.default ⟨true, "/x.o"⟩ "obj" [0, 1]
    .invalidObject emptyObject "/x.o" rfl (by decide) (by decide) (by decide) (by decide)
    (by decide)

/-- Auxiliary: the created-links trace distributes over list append. -/
theorem links_of_append (a b : List AttachOutcome) :
  links_of (a ++ b) = links_of a ++ links_of b := by
  simp [links_of, List.filterMap_append]

/-- Auxiliary: a batch whose every outcome is tolerated (successful
attach or the ESRCH condition) succeeds, creating exactly the links of
the successful attaches, dropping none, and filling the slots in
order. -/
theorem attach_all_tolerated (outs : List AttachOutcome)
    (h : ∀ o ∈ outs, attach_step o = .ok (slot_of o)) :
  attach_all outs = (links_of outs, [], .ok (outs.map slot_of)) := by
  induction outs with
  | nil => rfl
  | cons o rest ih =>
    have ho := h o (List.mem_cons_self o rest)
    have hrest : ∀ x ∈ rest, attach_step x = .ok (slot_of x) :=
      fun x hx => h x (List.mem_cons_of_mem o hx)
    simp only [attach_all, ho]
    rw [ih hrest]
    cases o <;> simp [links_of, slot_of]

/-- Auxiliary: a batch whose prefix is tolerated and whose next outcome
is an intolerable error aborts with that error; every link created for
the prefix is dropped by the early return, hence detached. -/
theorem attach_all_abort (pre : List AttachOutcome) (e : BpfError) (post : List AttachOutcome)
    (h : ∀ o ∈ pre, attach_step o = .ok (slot_of o))
    (he : attach_step (.err e) = .error e) :
  attach_all (pre ++ AttachOutcome.err e :: post) = (links_of pre, links_of pre, .error e) := by
  induction pre with
  | nil => simp [attach_all, he, links_of]
  | cons o rest ih =>
    have ho := h o (List.mem_cons_self o rest)
    have hrest : ∀ x ∈ rest, attach_step x = .ok (slot_of x) :=
      fun x hx => h x (List.mem_cons_of_mem o hx)
    simp only [List.cons_append, attach_all, ho, List.append_eq]
    rw [ih hrest]
    cases o <;> simp [links_of, slot_of]

/-- Counterexample to claim C4: previously-created links are not left
intact on abort. On the concrete batch where the first program
attaches (link 1), the second fails with errno 13 and a third would
attach, the batch aborts with `System(13)` and the link created for
the first program is dropped by the early return of the generated
struct literal — detaching it, since per the spec destruction of a
Link detaches — so the detached-links trace is `[1]`, not empty, and
the caller receives no handle to it. -/
theorem c4_abort_drops_previously_created_links :
  attach_all [.ok 1, .err (.system 13), .ok 2] = ([1], [1], .error (.system 13)) ∧
  (attach_all [.ok 1, .err (.system 13), .ok 2]).2.1 ≠ [] :=
  ⟨by decide, by decide⟩

/-- Claim C4 as amended: the generated attach operation processes
programs in discovery order; an attach failing with the ESRCH
condition (`System(3)`) is recorded as an empty link slot while the
remaining programs are still attached and the batch succeeds with
every created link retained in the links record and none dropped; an
attach failing with any other error aborts the batch with that error —
no later program is attached, the links record is never assigned, and
the early return drops the already-evaluated link temporaries, so
every previously-created link is detached rather than left intact. -/
theorem c4_attach_all_esrch_tolerated_abort_detaches (pre post : List AttachOutcome)
    (e : BpfError)
    (hpre : ∀ o ∈ pre, attach_step o = .ok (slot_of o))
    (hpost : ∀ o ∈ post, attach_step o = .ok (slot_of o))
    (he : e ≠ .system 3) :
  attach_all (pre ++ AttachOutcome.err (.system 3) :: post)
    = (links_of pre ++ links_of post, [],
       .ok (pre.map slot_of ++ none :: post.map slot_of)) ∧
  attach_all (pre ++ AttachOutcome.err e :: post)
    = (links_of pre, links_of pre, .error e) := by
  constructor
  · have hall : ∀ o ∈ pre ++ AttachOutcome.err (.system 3) :: post,
        attach_step o = .ok (slot_of o) := by
      intro o ho
      rcases List.mem_append.mp ho with h1 | h1
      · exact hpre o h1
      · rcases List.mem_cons.mp h1 with h2 | h2
        · subst h2; rfl
        · exact hpost o h2
    rw [attach_all_tolerated _ hall]
    simp [links_of_append, links_of, slot_of]
  · have hestep : attach_step (.err e) = .error e := by
      cases e with
      | system n =>
        have hn : n ≠ 3 := fun hc => he (by rw [hc])
        simp [attach_step, hn]
      | invalidInput s => rfl
      | notFound s => rfl
      | internal s => rfl
    exact attach_all_abort pre e post hpre hestep

/-- Witness for claim C4 as amended, on a three-program object: with
the middle attach failing with ESRCH the batch succeeds with an empty
middle slot, both other links created and none dropped; with the
middle attach failing with errno 13 the batch aborts with that error,
the first link is created and then dropped (detached) by the early
return, and the third program is never attached. -/
theorem c4_attach_all_esrch_tolerated_abort_detaches_witness :
  attach_all [.ok 1, .err (.system 3), .ok 2] = ([1, 2], [], .ok [some 1, none, some 2]) ∧
  attach_all [.ok 1, .err (.system 13), .ok 2] = ([1], [1], .error (.system 13)) := by
  have h := c4_attach_all_esrch_tolerated_abort_detaches [.ok 1] [.ok 2] (.system 13)
    (by intro o ho; simp at ho; subst ho; rfl)
    (by intro o ho; simp at ho; subst ho; rfl)
    (by decide)
  simpa using h

/-- Claim C5: the source renaming `get_map_name` agrees with the
spec-worded suffix table on every named map: a non-internal map keeps
its raw name; an internal section name ending in ".data", ".rodata",
".bss" or ".kconfig" is renamed to "data", "rodata", "bss" or
"kconfig" respectively; any other internal name is the generation
error. In particular the internal sections ".bss" and ".data" produce
accessors "bss" and "data" and the non-internal map "counters" keeps
its name. -/
theorem c5_internal_map_renaming :
  (∀ (internal : Bool) (n : String),
     get_map_name ⟨some n, internal⟩ = spec_canonical_map_name internal n) ∧
  get_map_name ⟨some ".bss", true⟩ = .ok "bss" ∧
  get_map_name ⟨some ".data", true⟩ = .ok "data" ∧
  get_map_name ⟨some ".rodata", true⟩ = .ok "rodata" ∧
  get_map_name ⟨some ".kconfig", true⟩ = .ok "kconfig" ∧
  get_map_name ⟨some "counters", false⟩ = .ok "counters" ∧
  get_map_name ⟨some "foo.maps", true⟩ = .error "Unknown map type" := by
  refine ⟨?_, by decide, by decide, by decide, by decide, by decide, by decide⟩
  intro internal n
  cases internal
  · simp [get_map_name, get_raw_map_name, spec_canonical_map_name]
  · simp only [get_map_name, get_raw_map_name, spec_canonical_map_name, spec_suffix_table,
      Bool.not_true, if_false, reduceIte, List.find?]
    cases h1 : ends_with n ".data" <;> cases h2 : ends_with n ".rodata" <;>
      cases h3 : ends_with n ".bss" <;> cases h4 : ends_with n ".kconfig" <;>
      simp [h1, h2, h3, h4]

/-- Counterexample to claim C6: the underlying lookup is not performed
at most once for every name, because misses are not cached. On an
object with no maps, two consecutive calls of `map "foo"` each perform
one underlying lookup (two in total), both returning the valid
not-found outcome `Ok(none)`. -/
theorem c6_absent_name_lookup_repeated :
  (Object.map emptyObject "foo").2.2 = 1 ∧
  (Object.map (Object.map emptyObject "foo").2.1 "foo").2.2 = 1 ∧
  (Object.map emptyObject "foo").1 = .ok none ∧
  (Object.map (Object.map emptyObject "foo").2.1 "foo").1 = .ok none :=
  ⟨rfl, rfl, rfl, rfl⟩

/-- Claim C6 as amended: `map(name)` and `prog(name)` perform lazy
memoized lookup for names that resolve: the first resolving call
performs the underlying lookup once, stores the created descriptor in
the table, and every subsequent call returns that same cached instance
with no further lookup; a name already in the table is served from it
with no lookup; an absent name returns the valid outcome `Ok(none)`
with the object unchanged, each such call repeating the underlying
lookup since misses are not cached. -/
theorem c6_memoized_lookup (o : Object)
    (nameHit nameMiss nameCached pHit pMiss pCached : String)
    (ptr pptr : Nat) (mbC : MapBuilder) (pbC : ProgramBuilder)
    (h1 : o.maps.lookup nameHit = none) (h2 : has_nul nameHit = false)
    (h3 : o.find_map nameHit = some ptr)
    (h4 : o.maps.lookup nameMiss = none) (h5 : has_nul nameMiss = false)
    (h6 : o.find_map nameMiss = none)
    (h7 : o.maps.lookup nameCached = some mbC)
    (p1 : o.progs.lookup pHit = none) (p2 : has_nul pHit = false)
    (p3 : o.find_prog pHit = some pptr)
    (p4 : o.progs.lookup pMiss = none) (p5 : has_nul pMiss = false)
    (p6 : o.find_prog pMiss = none)
    (p7 : o.progs.lookup pCached = some pbC) :
  o.map nameHit
    = (.ok (some ⟨ptr, nameHit, o.btf_fd⟩),
       { o with maps := (nameHit, ⟨ptr, nameHit, o.btf_fd⟩) :: o.maps }, 1) ∧
  ({ o with maps := (nameHit, ⟨ptr, nameHit, o.btf_fd⟩) :: o.maps } : Object).map nameHit
    = (.ok (some ⟨ptr, nameHit, o.btf_fd⟩),
       { o with maps := (nameHit, ⟨ptr, nameHit, o.btf_fd⟩) :: o.maps }, 0) ∧
  o.map nameCached = (.ok (some mbC), o, 0) ∧
  o.map nameMiss = (.ok none, o, 1) ∧
  o.prog pHit
    = (.ok (some ⟨pptr⟩), { o with progs := (pHit, ⟨pptr⟩) :: o.progs }, 1) ∧
  ({ o with progs := (pHit, ⟨pptr⟩) :: o.progs } : Object).prog pHit
    = (.ok (some ⟨pptr⟩), { o with progs := (pHit, ⟨pptr⟩) :: o.progs }, 0) ∧
  o.prog pCached = (.ok (some pbC), o, 0) ∧
  o.prog pMiss = (.ok none, o, 1) := by
  refine ⟨?_, ?_, ?_, ?_, ?_, ?_, ?_, ?_⟩
  · simp [Object.map, h1, h2, h3]
  · simp [Object.map, List.lookup]
  · simp [Object.map, h7]
  · simp [Object.map, h4, h5, h6]
  · simp [Object.prog, p1, p2, p3]
  · simp [Object.prog, List.lookup]
  · simp [Object.prog, p7]
  · simp [Object.prog, p4, p5, p6]

/-- Witness for claim C6 as amended, on the sample object: the
resolvable names "a" and "p" are looked up once and then served from
the table, the cached names "c" and "q" are served with no lookup, and
the absent names "zz" and "pz" return the not-found outcome. -/
theorem c6_memoized_lookup_witness :
  sampleObject.map "a"
    = (.ok (some ⟨7, "a", sampleObject.btf_fd⟩),
       { sampleObject with maps := ("a", ⟨7, "a", sampleObject.btf_fd⟩) :: sampleObject.maps },
       1) ∧
  ({ sampleObject with
      maps := ("a", ⟨7, "a", sampleObject.btf_fd⟩) :: sampleObject.maps } : Object).map "a"
    = (.ok (some ⟨7, "a", sampleObject.btf_fd⟩),
       { sampleObject with maps := ("a", ⟨7, "a", sampleObject.btf_fd⟩) :: sampleObject.maps },
       0) ∧
  sampleObject.map "c" = (.ok (some ⟨1, "c", 5⟩), sampleObject, 0) ∧
  sampleObject.map "zz" = (.ok none, sampleObject, 1) ∧
  sampleObject.prog "p"
    = (.ok (some ⟨9⟩), { sampleObject with progs := ("p", ⟨9⟩) :: sampleObject.progs }, 1) ∧
  ({ sampleObject with progs := ("p", ⟨9⟩) :: sampleObject.progs } : Object).prog "p"
    = (.ok (some ⟨9⟩), { sampleObject with progs := ("p", ⟨9⟩) :: sampleObject.progs }, 0) ∧
  sampleObject.prog "q" = (.ok (some ⟨2⟩), sampleObject, 0) ∧
  sampleObject.prog "pz" = (.ok none, sampleObject, 1) :=
  c6_memoized_lookup sampleObject "a" "zz" "c" "p" "pz" "q" 7 9 ⟨1, "c", 5⟩ ⟨2⟩
    (by decide) (by decide) rfl (by decide) (by decide) rfl (by decide)
    (by decide) (by decide) rfl (by decide) (by decide) rfl (by decide)

/-- Claim C7: a compiled object with zero maps and zero programs still
generates the top-level builder, open-view and loaded-view types, with
every maps/progs namespace, getter, links record and attach operation
absent; with zero maps (any programs) both maps namespaces and getters
are absent; with zero programs (any maps) both progs namespaces and
getters, the links record, the links field and the attach operation are
absent; and whenever generation succeeds the three top-level type names
are emitted. -/
theorem c7_empty_collections_omit_namespaces (objName : String) (maps : List MapObj)
    (progs : List ProgObj) :
  gen_skel_contents objName [] []
    = .ok { builder_name := capitalize_name objName ++ "SkelBuilder"
            open_maps_ns := none
            open_progs_ns := none
            open_skel_name := "Open" ++ capitalize_name objName ++ "Skel"
            load_inits_links := false
            open_progs_getter := false
            open_maps_getter := false
            loaded_maps_ns := none
            loaded_progs_ns := none
            links_def := none
            loaded_skel_name := capitalize_name objName ++ "Skel"
            links_field := false
            loaded_progs_getter := false
            loaded_maps_getter := false
            attach_def := none } ∧
  ((gen_skel_contents objName [] progs).map
      (fun p => (p.open_maps_ns, p.loaded_maps_ns, p.open_maps_getter, p.loaded_maps_getter))
    = (gen_skel_contents objName [] progs).map (fun _ => (none, none, false, false))) ∧
  ((gen_skel_contents objName maps []).map
      (fun p => (p.open_progs_ns, p.loaded_progs_ns, p.links_def, p.links_field,
                 p.attach_def, p.open_progs_getter, p.loaded_progs_getter, p.load_inits_links))
    = (gen_skel_contents objName maps []).map
        (fun _ => (none, none, none, false, none, false, false, false))) ∧
  ((gen_skel_contents objName maps progs).map
      (fun p => (p.builder_name, p.open_skel_name, p.loaded_skel_name))
    = (gen_skel_contents objName maps progs).map
        (fun _ => (capitalize_name objName ++ "SkelBuilder",
                   "Open" ++ capitalize_name objName ++ "Skel",
                   capitalize_name objName ++ "Skel"))) := by
  refine ⟨rfl, ?_, ?_, ?_⟩
  · cases progs with
    | nil => rfl
    | cons p ps =>
      cases h : prog_accessors (p :: ps) with
      | error e => simp [gen_skel_contents, h, Except.map]
      | ok pn => simp [gen_skel_contents, h, Except.map]
  · cases maps with
    | nil => rfl
    | cons m ms =>
      cases h : map_accessors (m :: ms) with
      | error e => simp [gen_skel_contents, h, Except.map]
      | ok mc => simp [gen_skel_contents, h, Except.map]
  · cases maps with
    | nil =>
      cases progs with
      | nil => rfl
      | cons p ps =>
        cases h2 : prog_accessors (p :: ps) with
        | error e => simp [gen_skel_contents, h2, Except.map]
        | ok pc => simp [gen_skel_contents, h2, Except.map]
    | cons m ms =>
      cases h : map_accessors (m :: ms) with
      | error e => simp [gen_skel_contents, h, Except.map]
      | ok mc =>
        cases progs with
        | nil => simp [gen_skel_contents, h, Except.map]
        | cons p ps =>
          cases h2 : prog_accessors (p :: ps) with
          | error e => simp [gen_skel_contents, h, h2, Except.map]
          | ok pc => simp [gen_skel_contents, h, h2, Except.map]

/-- Claim C9: `PerfBufferBuilder::new` initializes the page count to
64, which is a power of two and accepted by the page-count check, so
for every builder reachable without a `pages` call the build result is
never the page-count InvalidInput error. -/
theorem c9_default_page_count_valid (b : PerfBufferBuilder) (h : NoPagesCall b)
    (kres : Int) :
  b.pages = 64 ∧ b.pages = 2 ^ 6 ∧ is_power_two b.pages = true ∧
  (b.build kres).1 ≠ .error (.invalidInput "Page count must be power of two") := by
  have hp : b.pages = 64 := by
    induction h with
    | new m => rfl
    | sample_cb b hb ih => exact ih
    | lost_cb b hb ih => exact ih
  have h64 : is_power_two 64 = true := by decide
  refine ⟨hp, by rw [hp]; decide, by rw [hp]; exact h64, ?_⟩
  unfold PerfBufferBuilder.build
  rw [hp, h64]
  by_cases hm : b.map.map_type = MapType.perfEventArray
  · by_cases hk : kres = 0 <;> simp [hm, hk]
  · simp [hm]

/-- Witness for claim C9: the freshly created builder on a ring-buffer
map has page count 64 and its build with a successful kernel reply is
not the page-count error. -/
theorem c9_default_page_count_valid_witness :
  (PerfBufferBuilder.new perfMap).pages = 64 ∧
  (PerfBufferBuilder.new perfMap).pages = 2 ^ 6 ∧
  is_power_two (PerfBufferBuilder.new perfMap).pages = true ∧
  ((PerfBufferBuilder.new perfMap).build 0).1
    ≠ .error (.invalidInput "Page count must be power of two") :=
  c9_default_page_count_valid (PerfBufferBuilder.new perfMap) (NoPagesCall.new perfMap) 0

/-- Claim C10: the info iterators end normally when id enumeration
fails with ENOENT (2); an id whose fd lookup fails with ENOENT is
skipped silently and iteration continues with the next id; any other
errno from either step is yielded as a `System(errno)` item; and the
temporary fd obtained for an entry is closed after the info read
whether or not that read succeeds. -/
theorem c10_info_iterator_error_handling (g : Nat → Except Int Nat) (id fd : Nat)
    (rest : List (Nat × FdReply)) (er endE endAny : Int)
    (her : er ≠ 2) (hend : endE ≠ 2) :
  iter_next ⟨[], 2⟩ g = (none, ⟨[], 2⟩, []) ∧
  iter_next ⟨(id, .errno 2) :: rest, endAny⟩ g = iter_next ⟨rest, endAny⟩ g ∧
  iter_next ⟨[], endE⟩ g = (some (.error (.system endE)), ⟨[], endE⟩, []) ∧
  iter_next ⟨(id, .errno er) :: rest, endAny⟩ g
    = (some (.error (.system er)), ⟨rest, endAny⟩, []) ∧
  iter_next ⟨(id, .fd fd) :: rest, endAny⟩ g
    = (some (match g fd with | .ok i => .ok i | .error e2 => .error (.system e2)),
       ⟨rest, endAny⟩, [fd]) := by
  refine ⟨?_, ?_, ?_, ?_, ?_⟩
  · simp [iter_next, get_next_valid_fd]
  · simp [iter_next, get_next_valid_fd]
  · simp [iter_next, get_next_valid_fd, hend]
  · simp [iter_next, get_next_valid_fd, her]
  · cases hg : g fd <;> simp [iter_next, get_next_valid_fd, hg]

/-- Witness for claim C10 at errno 13 and an info read that fails: the
exhausted enumeration ends the iteration, the ENOENT entry is skipped,
errno 13 surfaces as a System item from either step, and the fd 33 is
closed even though its info read fails. -/
theorem c10_info_iterator_error_handling_witness :
  iter_next ⟨[], 2⟩ (fun _ => .error 13) = (none, ⟨[], 2⟩, []) ∧
  iter_next ⟨(7, .errno 2) :: [], 2⟩ (fun _ => .error 13)
    = iter_next ⟨[], 2⟩ (fun _ => .error 13) ∧
  iter_next ⟨[], 13⟩ (fun _ => .error 13) = (some (.error (.system 13)), ⟨[], 13⟩, []) ∧
  iter_next ⟨(7, .errno 13) :: [], 2⟩ (fun _ => .error 13)
    = (some (.error (.system 13)), ⟨[], 2⟩, []) ∧
  iter_next ⟨(7, .fd 33) :: [], 2⟩ (fun _ => .error 13)
    = (some (match (fun _ => (.error 13 : Except Int Nat)) 33 with
             | .ok i => .ok i
             | .error e2 => .error (.system e2)),
       ⟨[], 2⟩, [33]) :=
  c10_info_iterator_error_handling (fun _ => .error 13) 7 33 [] 13 13 2
    (by decide) (by decide)
